import Mathlib

/-!
Shallow embedding of the ZigBee helper module (zigbee.py): frames, the
pending-response store, the frame-ID allocator, the status classifier,
and the command codec (GPIO pins, samples, supply voltage).

Python bytes objects are modelled as `List Nat` (one entry per byte);
Python dicts as association lists or `Nat → Option _` stores; exceptions
as `Except` errors.  Python's signed list indexing (negative indices
address from the end) is modelled by `pyGet` over `Int` indices.
Wall-clock time in the `_send_and_wait` polling loop is modelled as a
count of poll iterations (one per 0.1 s sleep) remaining before the
10-second deadline.
-/

/-- The exception hierarchy of zigbee.py: `ZigBeeException` is the umbrella
class; each constructor is one of its subclasses. -/
inductive ZigBeeException where
  | responseTimeout
  | unknownError
  | invalidCommand
  | invalidParameter
  | txFailure
  | unknownStatus
  | pinNotConfigured
deriving DecidableEq, Repr

/-- Errors a codec operation can surface: either a `ZigBeeException` subclass
(the umbrella category), or one of Python's builtin exceptions raised by
unguarded dict/list accesses, which are NOT under the umbrella. -/
inductive PyError where
  | zigbee : ZigBeeException → PyError
  | keyError : PyError
  | indexError : PyError
deriving DecidableEq, Repr

/-- True exactly when the error is under the `ZigBeeException` umbrella, i.e.
a caller catching `ZigBeeException` catches it. -/
def PyError.isZigBeeException : PyError → Bool
  | .zigbee _ => true
  | _ => false

/-- A decoded frame delivered by the xbee transport: a dict with optional
keys `frame_id`, `status`, `parameter`, `command`.  The parameter payload
type `π` varies by command (raw bytes for AT responses, a list of
sample mappings for `IS` responses). -/
structure Frame (π : Type) where
  frame_id : Option Nat
  status : Option (List Nat)
  parameter : Option π
  command : Option (List Nat)
deriving DecidableEq, Repr

/-- `raise_if_error(frame)` from zigbee.py: no-op when the frame has no
`status` key or status `b"\x00"`; otherwise raises the exception mapped from
the status byte by the `codes_and_exceptions` table, falling back to
`ZigBeeUnknownStatus`. -/
def raise_if_error {π : Type} (frame : Frame π) : Except ZigBeeException Unit :=
  match frame.status with
  | none => .ok ()
  | some s =>
    if s = [0] then .ok ()
    else if s = [1] then .error .unknownError
    else if s = [2] then .error .invalidCommand
    else if s = [3] then .error .invalidParameter
    else if s = [4] then .error .txFailure
    else .error .unknownStatus

/-- `hex_to_int(value)` from zigbee.py (Python 3 branch):
`int.from_bytes(value, "big")`, i.e. fold the bytes big-endian. -/
def hex_to_int (value : List Nat) : Nat :=
  value.foldl (fun acc b => acc * 256 + b) 0

/-- `get_supply_voltage` decoding step: `(hex_to_int(value) * (1200/1024.0)) / 1000`,
computed over exact rationals (1200/1024 = 75/64 is exactly representable in
binary floating point, so the rational value agrees with the float
computation up to the final division's rounding, below 1e-15). -/
def get_supply_voltage (value : List Nat) : ℚ :=
  ((hex_to_int value : ℚ) * (1200 / 1024)) / 1000

/-- Mutable state of a `ZigBeeHelper` instance: the `_frame_id` counter and
the `_rx_frames` pending-response store (dict keyed by frame ID). -/
structure HelperState (π : Type) where
  frame_id : Nat
  rx_frames : Nat → Option (Frame π)

/-- Initial state: class attributes `_frame_id = 1`, `_rx_frames = {}`. -/
def initial_state (π : Type) : HelperState π :=
  { frame_id := 1, rx_frames := fun _ => none }

/-- `next_frame_id` from zigbee.py: returns the current counter as the frame
ID, increments the counter wrapping back to 1 above 0xFF, and deletes any
stale `_rx_frames` entry under the returned ID (`del` with the `KeyError`
swallowed). -/
def next_frame_id {π : Type} (st : HelperState π) : Nat × HelperState π :=
  let fid := st.frame_id
  let c := st.frame_id + 1
  let c := if c > 0xFF then 1 else c
  (fid, { frame_id := c,
          rx_frames := fun k => if k = fid then none else st.rx_frames k })

/-- `_frame_received(frame)`: store the frame keyed by its `frame_id`,
overwriting any previous entry; frames with no `frame_id` are discarded
(the `KeyError` is swallowed). -/
def frame_received {π : Type} (st : HelperState π) (frame : Frame π) : HelperState π :=
  match frame.frame_id with
  | some fid => { st with rx_frames := fun k => if k = fid then some frame else st.rx_frames k }
  | none => st

/-- Deliver a batch of frames through `_frame_received` in order. -/
def deliver_all {π : Type} (st : HelperState π) (frames : List (Frame π)) : HelperState π :=
  frames.foldl frame_received st

/-- The polling loop of `_send_and_wait`: at each iteration the transport
callback first delivers `arrivals t`, then the loop attempts
`self._rx_frames.pop(frame_id)`; on a hit the frame goes through
`raise_if_error` and is returned (or the classifier error propagates); on a
miss the loop sleeps 0.1 s and retries until the deadline, then raises
`ZigBeeResponseTimeout`.  `fuel` counts the poll iterations left before the
deadline. -/
def sw_loop {π : Type} (fid : Nat) (arrivals : Nat → List (Frame π)) :
    Nat → HelperState π → Nat → Except ZigBeeException (Frame π)
  | _, _, 0 => .error .responseTimeout
  | t, st, fuel + 1 =>
    let st2 := deliver_all st (arrivals t)
    match st2.rx_frames fid with
    | some frame =>
      match raise_if_error frame with
      | .ok _ => .ok frame
      | .error e => .error e
    | none => sw_loop fid arrivals (t + 1) st2 fuel

/-- `_send_and_wait`: allocate a frame ID via `next_frame_id` (which also
clears any stale store entry under it), send the request, then poll. -/
def send_and_wait {π : Type} (st : HelperState π) (arrivals : Nat → List (Frame π))
    (fuel : Nat) : Except ZigBeeException (Frame π) :=
  let p := next_frame_id st
  sw_loop p.1 arrivals 0 p.2 fuel

/-- State after `n` calls to `next_frame_id`, starting from `st`. -/
def alloc_iter {π : Type} (st : HelperState π) : Nat → HelperState π
  | 0 => st
  | n + 1 => (next_frame_id (alloc_iter st n)).2

/-- Frame ID returned by the `(n+1)`-th call to `next_frame_id` starting
from the initial state. -/
def id_at (n : Nat) : Nat :=
  (next_frame_id (alloc_iter (initial_state (List Nat)) n)).1

/-- Python sequence indexing `xs[i]`: non-negative indices address from the
front, negative indices `-len ≤ i < 0` address from the end, anything else
raises `IndexError` (modelled by `none`). -/
def pyGet {α : Type} (xs : List α) (i : Int) : Option α :=
  if 0 ≤ i then xs[i.toNat]?
  else if -(xs.length : Int) ≤ i then xs[(i + xs.length).toNat]?
  else none

/-- `DIGITAL_PINS` tuple from zigbee.py (sample-mapping key names). -/
def DIGITAL_PINS : List String :=
  ["dio-0", "dio-1", "dio-2", "dio-3", "dio-4", "dio-5",
   "dio-10", "dio-11", "dio-12"]

/-- `ANALOG_PINS` tuple from zigbee.py (sample-mapping key names). -/
def ANALOG_PINS : List String :=
  ["adc-0", "adc-1", "adc-2", "adc-3"]

/-- `IO_PIN_COMMANDS` tuple from zigbee.py: the two-character AT command
mnemonics `b"D0".."D5", b"P0".."P2"` as byte lists. -/
def IO_PIN_COMMANDS : List (List Nat) :=
  [[68, 48], [68, 49], [68, 50], [68, 51], [68, 52], [68, 53],
   [80, 48], [80, 49], [80, 50]]

/-- The six canonical GPIO settings (`GPIO_DISABLED` .. `GPIO_DIGITAL_OUTPUT_HIGH`). -/
inductive GPIOSetting where
  | disabled
  | standardFunc
  | adc
  | digitalInput
  | digitalOutputLow
  | digitalOutputHigh
deriving DecidableEq, Repr

/-- The one-byte wire encoding (`.value` attribute) of a GPIO setting. -/
def GPIOSetting.value : GPIOSetting → List Nat
  | .disabled => [0]
  | .standardFunc => [1]
  | .adc => [2]
  | .digitalInput => [3]
  | .digitalOutputLow => [4]
  | .digitalOutputHigh => [5]

/-- The `GPIO_SETTINGS` dict from zigbee.py: wire byte → setting. -/
def GPIO_SETTINGS : List (List Nat × GPIOSetting) :=
  [([0], .disabled), ([1], .standardFunc), ([2], .adc),
   ([3], .digitalInput), ([4], .digitalOutputLow), ([5], .digitalOutputHigh)]

/-- An outgoing AT request as handed to `_send`: command mnemonic, optional
parameter bytes, optional long destination address. -/
structure Request where
  command : List Nat
  parameter : Option (List Nat)
  dest_addr_long : Option (List Nat)
deriving DecidableEq, Repr

/-- The transport stub used for round-trip reasoning: remembers, per
(command, destination) pair, the last parameter byte string written to it. -/
structure EchoStub where
  written : List Nat → Option (List Nat) → Option (List Nat)

/-- An echo stub that has recorded nothing. -/
def empty_stub : EchoStub :=
  { written := fun _ _ => none }

/-- Feed one outgoing request to the echo stub: a request carrying a
parameter records it under its (command, destination) pair. -/
def stub_write (stub : EchoStub) (req : Request) : EchoStub :=
  match req.parameter with
  | some p =>
    { written := fun c d =>
        if c = req.command ∧ d = req.dest_addr_long then some p
        else stub.written c d }
  | none => stub

/-- The response frame the echo stub delivers for a query on a
(command, destination) pair: success status, and as `parameter` the byte
string last written under that pair (absent if none was). -/
def stub_response (stub : EchoStub) (cmd : List Nat) (dest : Option (List Nat)) :
    Frame (List Nat) :=
  { frame_id := none, status := some [0], parameter := stub.written cmd dest,
    command := some cmd }

/-- `get_sample` decoding step, applied to the `IS` response frame:
`frame["parameter"][0]` when the `parameter` key is present (an unguarded
`[0]` index, `IndexError` on an empty sequence), `{}` otherwise.  `α` is the
type of raw sampled values. -/
def get_sample {α : Type} (frame : Frame (List (List (String × α)))) :
    Except PyError (List (String × α)) :=
  match frame.parameter with
  | some ps =>
    match ps with
    | s :: _ => .ok s
    | [] => .error .indexError
  | none => .ok []

/-- `read_digital_pin(pin_number)`: fetch a sample (here: decode the given
`IS` response frame), then look up `DIGITAL_PINS[pin_number]` in it; a
missing key raises `ZigBeePinNotConfigured`, an out-of-range index raises
`IndexError` from the tuple access. -/
def read_digital_pin {α : Type} (frame : Frame (List (List (String × α))))
    (pin_number : Int) : Except PyError α :=
  match get_sample frame with
  | .error e => .error e
  | .ok sample =>
    match pyGet DIGITAL_PINS pin_number with
    | none => .error .indexError
    | some pin_name =>
      match sample.lookup pin_name with
      | some v => .ok v
      | none => .error (.zigbee .pinNotConfigured)

/-- `read_analog_pin(pin_number)`: same pattern over `ANALOG_PINS`. -/
def read_analog_pin {α : Type} (frame : Frame (List (List (String × α))))
    (pin_number : Int) : Except PyError α :=
  match get_sample frame with
  | .error e => .error e
  | .ok sample =>
    match pyGet ANALOG_PINS pin_number with
    | none => .error .indexError
    | some pin_name =>
      match sample.lookup pin_name with
      | some v => .ok v
      | none => .error (.zigbee .pinNotConfigured)

/-- `set_gpio_pin(pin_number, setting)`: send `IO_PIN_COMMANDS[pin_number]`
with the setting's wire byte as parameter; the outgoing request is returned
so a transport stub can observe it.  The tuple access raises `IndexError`
for an out-of-range index. -/
def set_gpio_pin (pin_number : Int) (setting : GPIOSetting)
    (dest_addr_long : Option (List Nat)) : Except PyError Request :=
  match pyGet IO_PIN_COMMANDS pin_number with
  | none => .error .indexError
  | some cmd =>
    .ok { command := cmd, parameter := some setting.value,
          dest_addr_long := dest_addr_long }

/-- `get_gpio_pin` decoding step, applied to the response frame:
`value = frame["parameter"]` (a plain dict access, `KeyError` if absent)
then `GPIO_SETTINGS[value]` (a plain dict access, `KeyError` when the byte
is not one of the six known values). -/
def get_gpio_pin_decode (frame : Frame (List Nat)) : Except PyError GPIOSetting :=
  match frame.parameter with
  | none => .error .keyError
  | some value =>
    match GPIO_SETTINGS.lookup value with
    | some s => .ok s
    | none => .error .keyError

/-- `get_gpio_pin(pin_number)`: send `IO_PIN_COMMANDS[pin_number]` with no
parameter, receive the response frame from the transport (here: the echo
stub), pass it through the classifier inside `_send_and_wait`, then decode
its parameter byte. -/
def get_gpio_pin (stub : EchoStub) (pin_number : Int)
    (dest_addr_long : Option (List Nat)) : Except PyError GPIOSetting :=
  match pyGet IO_PIN_COMMANDS pin_number with
  | none => .error .indexError
  | some cmd =>
    let frame := stub_response stub cmd dest_addr_long
    match raise_if_error frame with
    | .error e => .error (.zigbee e)
    | .ok _ => get_gpio_pin_decode frame

/-- `set_gpio_pin` on a pin followed by `get_gpio_pin` on the same pin and
destination, against the echo transport stub. -/
def set_then_get (stub : EchoStub) (pin_number : Int) (setting : GPIOSetting)
    (dest_addr_long : Option (List Nat)) : Except PyError GPIOSetting :=
  match set_gpio_pin pin_number setting dest_addr_long with
  | .error e => .error e
  | .ok req => get_gpio_pin (stub_write stub req) pin_number dest_addr_long

/-! ## Helper lemmas -/

theorem next_frame_id_fst {π : Type} (st : HelperState π) :
    (next_frame_id st).1 = st.frame_id := rfl

theorem next_frame_id_rx_self {π : Type} (st : HelperState π) :
    (next_frame_id st).2.rx_frames (next_frame_id st).1 = none := by
  simp [next_frame_id]

theorem next_frame_id_rx_other {π : Type} (st : HelperState π) (j : Nat)
    (h : j ≠ (next_frame_id st).1) :
    (next_frame_id st).2.rx_frames j = st.rx_frames j := by
  simp [next_frame_id] at h ⊢
  simp [h]

theorem frame_received_rx_miss {π : Type} (st : HelperState π) (f : Frame π)
    (fid : Nat) (hne : f.frame_id ≠ some fid) (h : st.rx_frames fid = none) :
    (frame_received st f).rx_frames fid = none := by
  unfold frame_received
  cases hf : f.frame_id with
  | none => simpa using h
  | some j =>
    have hj : fid ≠ j := by
      intro hc
      exact hne (by simpa [hc] using hf)
    simpa [hj] using h

theorem deliver_all_rx_miss {π : Type} (frames : List (Frame π)) :
    ∀ (st : HelperState π) (fid : Nat),
      (∀ f ∈ frames, f.frame_id ≠ some fid) → st.rx_frames fid = none →
      (deliver_all st frames).rx_frames fid = none := by
  induction frames with
  | nil => intro st fid _ h; simpa [deliver_all] using h
  | cons f fs ih =>
    intro st fid hall h
    have h1 : (frame_received st f).rx_frames fid = none :=
      frame_received_rx_miss st f fid (hall f (by simp)) h
    have h2 : ∀ g ∈ fs, g.frame_id ≠ some fid := fun g hg => hall g (by simp [hg])
    simpa [deliver_all] using ih (frame_received st f) fid h2 h1

theorem sw_loop_timeout {π : Type} (fid : Nat) (arrivals : Nat → List (Frame π))
    (hnf : ∀ t f, f ∈ arrivals t → f.frame_id ≠ some fid) :
    ∀ (fuel t : Nat) (st : HelperState π), st.rx_frames fid = none →
      sw_loop fid arrivals t st fuel = .error .responseTimeout := by
  intro fuel
  induction fuel with
  | zero => intro t st _; rfl
  | succ n ih =>
    intro t st h
    have h2 : (deliver_all st (arrivals t)).rx_frames fid = none :=
      deliver_all_rx_miss (arrivals t) st fid (hnf t) h
    simp only [sw_loop, h2]
    exact ih (t + 1) (deliver_all st (arrivals t))  h2

theorem alloc_iter_counter (n : Nat) :
    (alloc_iter (initial_state (List Nat)) n).frame_id = n % 255 + 1 := by
  induction n with
  | zero => rfl
  | succ n ih =>
    show (next_frame_id (alloc_iter (initial_state (List Nat)) n)).2.frame_id
        = (n + 1) % 255 + 1
    simp only [next_frame_id, ih]
    split <;> omega

theorem id_at_eq (n : Nat) : id_at n = n % 255 + 1 := by
  unfold id_at
  rw [next_frame_id_fst, alloc_iter_counter]

/-- Claim C1: if no frame carrying the allocated frame ID is delivered to the
pending-response store during the `_send_and_wait` polling loop, the call
fails with `ZigBeeResponseTimeout`, and that is the only possible outcome:
for every helper state, every pattern of arriving frames none of which
carries the allocated ID, and every number of poll iterations before the
deadline, `_send_and_wait` returns exactly the response-timeout error. -/
theorem send_and_wait_timeout_of_no_matching_frame {π : Type} (st : HelperState π)
    (arrivals : Nat → List (Frame π)) (fuel : Nat)
    (h : ∀ t f, f ∈ arrivals t → f.frame_id ≠ some (next_frame_id st).1) :
    send_and_wait st arrivals fuel = .error .responseTimeout := by
  unfold send_and_wait
  exact sw_loop_timeout _ arrivals h fuel 0 _ (next_frame_id_rx_self st)

/-- Witness for C1: from the initial state, with no frames arriving at all
and three poll iterations available, `_send_and_wait` times out. -/
theorem send_and_wait_timeout_of_no_matching_frame_w :
    send_and_wait (initial_state (List Nat)) (fun _ => []) 3 = .error .responseTimeout :=
  send_and_wait_timeout_of_no_matching_frame (initial_state (List Nat)) (fun _ => []) 3
    (fun _ _ hf => nomatch hf)

/-- Claim C2: `raise_if_error` raises exactly when the frame carries a
present, non-zero status byte: a missing status or status byte zero is a
no-op; status bytes 1, 2, 3, 4 map to `ZigBeeUnknownError`,
`ZigBeeInvalidCommand`, `ZigBeeInvalidParameter`, `ZigBeeTxFailure`
respectively; any other non-zero status byte maps to the catch-all
`ZigBeeUnknownStatus`; and every non-zero status byte raises. -/
theorem raise_if_error_classification {π : Type} (f : Frame π) :
    (f.status = none → raise_if_error f = .ok ()) ∧
    (f.status = some [0] → raise_if_error f = .ok ()) ∧
    (f.status = some [1] → raise_if_error f = .error .unknownError) ∧
    (f.status = some [2] → raise_if_error f = .error .invalidCommand) ∧
    (f.status = some [3] → raise_if_error f = .error .invalidParameter) ∧
    (f.status = some [4] → raise_if_error f = .error .txFailure) ∧
    (∀ b : Nat, f.status = some [b] → 4 < b → raise_if_error f = .error .unknownStatus) ∧
    (∀ b : Nat, f.status = some [b] → b ≠ 0 → raise_if_error f ≠ .ok ()) := by
  refine ⟨?_, ?_, ?_, ?_, ?_, ?_, ?_, ?_⟩
  · intro h; simp [raise_if_error, h]
  · intro h; simp [raise_if_error, h]
  · intro h; simp [raise_if_error, h]
  · intro h; simp [raise_if_error, h]
  · intro h; simp [raise_if_error, h]
  · intro h; simp [raise_if_error, h]
  · intro b h hb
    have e0 : b ≠ 0 := by omega
    have e1 : b ≠ 1 := by omega
    have e2 : b ≠ 2 := by omega
    have e3 : b ≠ 3 := by omega
    have e4 : b ≠ 4 := by omega
    simp [raise_if_error, h, e0, e1, e2, e3, e4]
  · intro b h hb
    simp only [raise_if_error, h]
    split_ifs <;> simp_all

/-- A frame carrying only a status, used to exercise the classifier. -/
def status_frame (s : Option (List Nat)) : Frame (List Nat) :=
  { frame_id := none, status := s, parameter := none, command := none }

/-- Witness for C2: status byte 2 raises the invalid-command error, status
byte 0 is a no-op, and the undocumented status byte 7 raises the catch-all
unknown-status error. -/
theorem raise_if_error_classification_w :
    raise_if_error (status_frame (some [2])) = .error .invalidCommand ∧
    raise_if_error (status_frame (some [0])) = .ok () ∧
    raise_if_error (status_frame (some [7])) = .error .unknownStatus :=
  ⟨(raise_if_error_classification (status_frame (some [2]))).2.2.2.1 rfl,
   (raise_if_error_classification (status_frame (some [0]))).2.1 rfl,
   (raise_if_error_classification (status_frame (some [7]))).2.2.2.2.2.2.1 7 rfl
     (by omega)⟩

/-- Claim C3: starting from the initial state, the `(n+1)`-th call to
`next_frame_id` returns `n % 255 + 1`; hence every returned frame ID lies in
[1, 255] and is never 0, the first call returns 1, each call returns the
successor of the previous value except that the call after the one
returning 255 returns 1 again, for any number of consecutive calls
(in particular over 300 calls). -/
theorem frame_id_allocation_sequence (n : Nat) :
    id_at n = n % 255 + 1 ∧
    1 ≤ id_at n ∧ id_at n ≤ 255 ∧ id_at n ≠ 0 ∧
    id_at 0 = 1 ∧
    id_at (n + 1) = (if id_at n = 255 then 1 else id_at n + 1) ∧
    id_at (255 * n + 254) = 255 ∧ id_at (255 * n + 255) = 1 := by
  refine ⟨id_at_eq n, ?_, ?_, ?_, ?_, ?_, ?_, ?_⟩
  · rw [id_at_eq]; omega
  · rw [id_at_eq]; omega
  · rw [id_at_eq]; omega
  · rw [id_at_eq]
  · rw [id_at_eq, id_at_eq]
    split <;> omega
  · rw [id_at_eq]; omega
  · rw [id_at_eq]; omega

/-- Claim C9: a call to `next_frame_id` returning ID `i` leaves the
pending-response store with no entry keyed by `i`, and leaves every entry
keyed by any other frame ID unchanged. -/
theorem next_frame_id_clears_entry {π : Type} (st : HelperState π) (j : Nat)
    (h : j ≠ (next_frame_id st).1) :
    (next_frame_id st).2.rx_frames (next_frame_id st).1 = none ∧
    (next_frame_id st).2.rx_frames j = st.rx_frames j :=
  ⟨next_frame_id_rx_self st, next_frame_id_rx_other st j h⟩

/-- A concrete stale frame sitting in the store under key 1, plus a frame
under key 2, to exercise the allocator's defensive cleanup. -/
def stale_frame : Frame (List Nat) :=
  { frame_id := some 1, status := none, parameter := some [9], command := none }

/-- A helper state about to allocate ID 1 while entries for IDs 1 and 2 are
still in the store. -/
def stale_state : HelperState (List Nat) :=
  { frame_id := 1,
    rx_frames := fun k =>
      if k = 1 then some stale_frame
      else if k = 2 then some { stale_frame with frame_id := some 2 }
      else none }

/-- Witness for C9: allocating from `stale_state` returns ID 1, clears the
stale entry under key 1, and leaves the entry under key 2 unchanged. -/
theorem next_frame_id_clears_entry_w :
    (next_frame_id stale_state).2.rx_frames (next_frame_id stale_state).1 = none ∧
    (next_frame_id stale_state).2.rx_frames 2 = stale_state.rx_frames 2 :=
  next_frame_id_clears_entry stale_state 2 (by decide)

theorem pyGet_oob {α : Type} (xs : List α) (i : Int)
    (h : (xs.length : Int) ≤ i ∨ i < -(xs.length : Int)) : pyGet xs i = none := by
  unfold pyGet
  rcases h with h | h
  · rw [if_pos (by omega)]
    apply List.getElem?_eq_none
    omega
  · rw [if_neg (by omega), if_neg (by omega)]

theorem pyGet_neg_wrap {α : Type} (xs : List α) (i : Int)
    (h1 : -(xs.length : Int) ≤ i) (h2 : i < 0) :
    pyGet xs i = pyGet xs (i + xs.length) := by
  unfold pyGet
  rw [if_neg (by omega), if_pos h1, if_pos (by omega)]

theorem get_sample_error_eq {α : Type} (frame : Frame (List (List (String × α))))
    (e : PyError) (h : get_sample frame = .error e) : e = .indexError := by
  unfold get_sample at h
  rcases hp : frame.parameter with _ | ps
  · rw [hp] at h; simp at h
  · rw [hp] at h
    cases ps with
    | nil => simp at h; exact h.symm
    | cons s rest => simp at h

theorem read_digital_pin_oob {α : Type} (frame : Frame (List (List (String × α))))
    (pin : Int) (h : pyGet DIGITAL_PINS pin = none) :
    read_digital_pin frame pin = .error .indexError := by
  unfold read_digital_pin
  cases hgs : get_sample frame with
  | error e => simp [get_sample_error_eq frame e hgs]
  | ok s => simp [h]

theorem read_analog_pin_oob {α : Type} (frame : Frame (List (List (String × α))))
    (pin : Int) (h : pyGet ANALOG_PINS pin = none) :
    read_analog_pin frame pin = .error .indexError := by
  unfold read_analog_pin
  cases hgs : get_sample frame with
  | error e => simp [get_sample_error_eq frame e hgs]
  | ok s => simp [h]

theorem read_digital_pin_congr {α : Type} (frame : Frame (List (List (String × α))))
    (p q : Int) (h : pyGet DIGITAL_PINS p = pyGet DIGITAL_PINS q) :
    read_digital_pin frame p = read_digital_pin frame q := by
  unfold read_digital_pin
  rw [h]

theorem read_analog_pin_congr {α : Type} (frame : Frame (List (List (String × α))))
    (p q : Int) (h : pyGet ANALOG_PINS p = pyGet ANALOG_PINS q) :
    read_analog_pin frame p = read_analog_pin frame q := by
  unfold read_analog_pin
  rw [h]

theorem set_gpio_pin_congr (p q : Int) (s : GPIOSetting) (d : Option (List Nat))
    (h : pyGet IO_PIN_COMMANDS p = pyGet IO_PIN_COMMANDS q) :
    set_gpio_pin p s d = set_gpio_pin q s d := by
  unfold set_gpio_pin
  rw [h]

theorem get_gpio_pin_congr (stub : EchoStub) (p q : Int) (d : Option (List Nat))
    (h : pyGet IO_PIN_COMMANDS p = pyGet IO_PIN_COMMANDS q) :
    get_gpio_pin stub p d = get_gpio_pin stub q d := by
  unfold get_gpio_pin
  rw [h]

/-- Claim C4: for every in-range pin index and each of the six canonical GPIO
settings, `set_gpio_pin` followed by `get_gpio_pin` on the same index and
destination returns the setting just set, given a transport stub that echoes
the written parameter byte back as the response frame's parameter. -/
theorem set_get_gpio_roundtrip (stub : EchoStub) (pin : Int) (s : GPIOSetting)
    (d : Option (List Nat)) (h0 : 0 ≤ pin) (h9 : pin < 9) :
    set_then_get stub pin s d = .ok s := by
  have hlookup : GPIO_SETTINGS.lookup s.value = some s := by
    cases s <;> rfl
  have hcmd : ∃ cmd, pyGet IO_PIN_COMMANDS pin = some cmd := by
    interval_cases pin <;> exact ⟨_, rfl⟩
  obtain ⟨cmd, hc⟩ := hcmd
  simp [set_then_get, set_gpio_pin, get_gpio_pin, hc, stub_write, stub_response,
        raise_if_error, get_gpio_pin_decode, hlookup]

/-- Witness for C4: setting pin 3 to ADC and reading it back through the echo
stub yields ADC. -/
theorem set_get_gpio_roundtrip_w :
    set_then_get empty_stub 3 .adc none = .ok .adc :=
  set_get_gpio_roundtrip empty_stub 3 .adc none (by decide) (by decide)

/-- An `IS` response frame whose sample maps `"dio-12"` (digital pin index 8)
to `True`. -/
def dio12_frame : Frame (List (List (String × Bool))) :=
  { frame_id := none, status := none, parameter := some [[("dio-12", true)]],
    command := none }

/-- Counterexample to claim C6: the out-of-range pin index `-1` does not fail
fast; Python's negative tuple indexing silently maps it onto the last valid
pin, so `read_digital_pin(-1)` reads pin `"dio-12"` and succeeds, and
`set_gpio_pin(-1, ...)` sends the command `b"P2"` of valid pin index 8. -/
theorem read_digital_pin_negative_index_cex :
    read_digital_pin dio12_frame (-1) = .ok true ∧
    set_gpio_pin (-1) .adc none =
      .ok { command := [80, 50], parameter := some [2], dest_addr_long := none } := by
  constructor <;> rfl

/-- Claim C6 (amended): pin indices at or beyond the table length (9 for the
digital/GPIO tables, 4 for the analog table), and indices below minus the
table length, make `read_digital_pin`, `read_analog_pin`, `set_gpio_pin`
and `get_gpio_pin` fail fast with an `IndexError`; but a negative index
within minus-length range is silently mapped onto the valid pin
`length + index` from the end of the table (Python negative indexing)
rather than failing. -/
theorem pin_index_range_behavior {α : Type} (frame : Frame (List (List (String × α))))
    (stub : EchoStub) (s : GPIOSetting) (d : Option (List Nat)) (pin : Int) :
    (9 ≤ pin ∨ pin < -9 →
      read_digital_pin frame pin = .error .indexError ∧
      set_gpio_pin pin s d = .error .indexError ∧
      get_gpio_pin stub pin d = .error .indexError) ∧
    (4 ≤ pin ∨ pin < -4 → read_analog_pin frame pin = .error .indexError) ∧
    (-9 ≤ pin → pin < 0 →
      read_digital_pin frame pin = read_digital_pin frame (pin + 9) ∧
      set_gpio_pin pin s d = set_gpio_pin (pin + 9) s d ∧
      get_gpio_pin stub pin d = get_gpio_pin stub (pin + 9) d) ∧
    (-4 ≤ pin → pin < 0 → read_analog_pin frame pin = read_analog_pin frame (pin + 4)) := by
  have hd : (DIGITAL_PINS.length : Int) = 9 := by simp [DIGITAL_PINS]
  have ha : (ANALOG_PINS.length : Int) = 4 := by simp [ANALOG_PINS]
  have hio : (IO_PIN_COMMANDS.length : Int) = 9 := by simp [IO_PIN_COMMANDS]
  refine ⟨?_, ?_, ?_, ?_⟩
  · intro h
    have hdg : pyGet DIGITAL_PINS pin = none := pyGet_oob _ _ (by rw [hd]; omega)
    have hig : pyGet IO_PIN_COMMANDS pin = none := pyGet_oob _ _ (by rw [hio]; omega)
    refine ⟨read_digital_pin_oob frame pin hdg, ?_, ?_⟩
    · simp [set_gpio_pin, hig]
    · simp [get_gpio_pin, hig]
  · intro h
    have hag : pyGet ANALOG_PINS pin = none := pyGet_oob _ _ (by rw [ha]; omega)
    exact read_analog_pin_oob frame pin hag
  · intro h1 h2
    have hdg : pyGet DIGITAL_PINS pin = pyGet DIGITAL_PINS (pin + 9) := by
      have := pyGet_neg_wrap DIGITAL_PINS pin (by rw [hd]; omega) h2
      rw [this, hd]
    have hig : pyGet IO_PIN_COMMANDS pin = pyGet IO_PIN_COMMANDS (pin + 9) := by
      have := pyGet_neg_wrap IO_PIN_COMMANDS pin (by rw [hio]; omega) h2
      rw [this, hio]
    exact ⟨read_digital_pin_congr frame pin (pin + 9) hdg,
           set_gpio_pin_congr pin (pin + 9) s d hig,
           get_gpio_pin_congr stub pin (pin + 9) d hig⟩
  · intro h1 h2
    have hag : pyGet ANALOG_PINS pin = pyGet ANALOG_PINS (pin + 4) := by
      have := pyGet_neg_wrap ANALOG_PINS pin (by rw [ha]; omega) h2
      rw [this, ha]
    exact read_analog_pin_congr frame pin (pin + 4) hag

/-- Witness for C6 (amended): index 9 fails fast on the digital table, index
4 fails fast on the analog table, and index -1 behaves as index 8. -/
theorem pin_index_range_behavior_w :
    read_digital_pin dio12_frame 9 = .error .indexError ∧
    read_analog_pin dio12_frame 4 = .error .indexError ∧
    read_digital_pin dio12_frame (-1) = read_digital_pin dio12_frame (-1 + 9) :=
  ⟨((pin_index_range_behavior dio12_frame empty_stub .adc none 9).1
      (Or.inl (by decide))).1,
   (pin_index_range_behavior dio12_frame empty_stub .adc none 4).2.1
      (Or.inl (by decide)),
   ((pin_index_range_behavior dio12_frame empty_stub .adc none (-1)).2.2.1
      (by decide) (by decide)).1⟩

/-- Claim C7: for a pin index that resolves to a sample-key name in the
`DIGITAL_PINS` table (e.g. index 3 to `"dio-3"`), `read_digital_pin` returns
exactly the value stored under that name in the decoded sample when the name
is present, and fails with `ZigBeePinNotConfigured` when the name is absent
from the sample. -/
theorem read_digital_pin_lookup {α : Type} (frame : Frame (List (List (String × α))))
    (sample : List (String × α)) (pin : Int) (pin_name : String)
    (hs : get_sample frame = .ok sample)
    (hn : pyGet DIGITAL_PINS pin = some pin_name) :
    (∀ v, sample.lookup pin_name = some v → read_digital_pin frame pin = .ok v) ∧
    (sample.lookup pin_name = none →
      read_digital_pin frame pin = .error (.zigbee .pinNotConfigured)) := by
  constructor
  · intro v hv
    simp [read_digital_pin, hs, hn, hv]
  · intro hv
    simp [read_digital_pin, hs, hn, hv]

/-- An `IS` response frame whose sample maps `"dio-3"` to `True`. -/
def dio3_frame : Frame (List (List (String × Bool))) :=
  { frame_id := none, status := none, parameter := some [[("dio-3", true)]],
    command := none }

/-- An `IS` response frame whose sample lacks the key `"dio-3"`. -/
def no_dio3_frame : Frame (List (List (String × Bool))) :=
  { frame_id := none, status := none, parameter := some [[("adc-0", false)]],
    command := none }

/-- Witness for C7: `read_digital_pin(3)` against a sample containing
`{"dio-3": True}` returns `True`; against a sample lacking `"dio-3"` it
fails with the pin-not-configured error. -/
theorem read_digital_pin_lookup_w :
    read_digital_pin dio3_frame 3 = .ok true ∧
    read_digital_pin no_dio3_frame 3 = .error (.zigbee .pinNotConfigured) :=
  ⟨(read_digital_pin_lookup dio3_frame [("dio-3", true)] 3 "dio-3" rfl rfl).1
      true rfl,
   (read_digital_pin_lookup no_dio3_frame [("adc-0", false)] 3 "dio-3" rfl rfl).2
      rfl⟩

theorem hex_to_int_foldl_acc (value : List Nat) :
    ∀ acc : Nat, value.foldl (fun a b => a * 256 + b) acc =
      acc * 256 ^ value.length + Nat.ofDigits 256 value.reverse := by
  induction value with
  | nil => intro acc; simp [Nat.ofDigits]
  | cons x xs ih =>
    intro acc
    simp only [List.foldl_cons, List.reverse_cons, List.length_cons]
    rw [ih, Nat.ofDigits_append, Nat.ofDigits_singleton]
    rw [List.length_reverse]
    ring

theorem hex_to_int_ofDigits (value : List Nat) :
    hex_to_int value = Nat.ofDigits 256 value.reverse := by
  have h := hex_to_int_foldl_acc value 0
  simpa [hex_to_int] using h

/-- Claim C8: `get_supply_voltage` decodes the response's parameter bytes as
a big-endian unsigned integer (the positional base-256 value of the byte
sequence) and converts it through `raw * (1200/1024.0) / 1000`; for the
parameter `b"\x02\x66"` representing 614 the result is 0.71953125 volts,
within 0.0001 of 0.7195. -/
theorem get_supply_voltage_spec (value : List Nat) :
    hex_to_int value = Nat.ofDigits 256 value.reverse ∧
    get_supply_voltage value =
      (((Nat.ofDigits 256 value.reverse : ℕ) : ℚ) * (1200 / 1024)) / 1000 ∧
    hex_to_int [2, 102] = 614 ∧
    get_supply_voltage [2, 102] = 921 / 1280 ∧
    |get_supply_voltage [2, 102] - 7195 / 10000| ≤ 1 / 10000 := by
  have hv : get_supply_voltage [2, 102] = 921 / 1280 := by
    norm_num [get_supply_voltage, hex_to_int]
  refine ⟨hex_to_int_ofDigits value, ?_, rfl, hv, ?_⟩
  · rw [get_supply_voltage, hex_to_int_ofDigits]
  · rw [hv, abs_le]
    constructor <;> norm_num

/-- A GPIO query response frame carrying the unknown setting byte `0x06`. -/
def unknown_byte_frame : Frame (List Nat) :=
  { frame_id := none, status := some [0], parameter := some [6],
    command := some [68, 48] }

/-- Counterexample to claim C5: on a response frame whose parameter byte
`0x06` is not one of the six known GPIO-setting bytes, the `get_gpio_pin`
decode step fails with a plain `KeyError` from the `GPIO_SETTINGS[value]`
dict access, which is NOT one of the typed failure kinds under the
`ZigBeeException` umbrella, so a caller catching the umbrella category does
not catch it. -/
theorem get_gpio_pin_unknown_byte_cex :
    get_gpio_pin_decode unknown_byte_frame = .error .keyError ∧
    PyError.keyError.isZigBeeException = false := by
  constructor <;> rfl

theorem gpio_settings_lookup_none (value : List Nat)
    (hv : ∀ s : GPIOSetting, value ≠ s.value) : GPIO_SETTINGS.lookup value = none := by
  have h0 := hv .disabled
  have h1 := hv .standardFunc
  have h2 := hv .adc
  have h3 := hv .digitalInput
  have h4 := hv .digitalOutputLow
  have h5 := hv .digitalOutputHigh
  simp only [GPIOSetting.value] at h0 h1 h2 h3 h4 h5
  simp [GPIO_SETTINGS, List.lookup, beq_eq_false_iff_ne.mpr h0,
        beq_eq_false_iff_ne.mpr h1, beq_eq_false_iff_ne.mpr h2,
        beq_eq_false_iff_ne.mpr h3, beq_eq_false_iff_ne.mpr h4,
        beq_eq_false_iff_ne.mpr h5]

/-- Claim C5 (amended): for every response frame whose parameter byte string
is present but is not the wire encoding of any of the six known GPIO
settings, `get_gpio_pin` fails with a plain `KeyError` (an unguarded dict
lookup), which is NOT one of the typed failure kinds under the single
umbrella failure category — a caller catching the umbrella category does not
catch it. -/
theorem get_gpio_pin_unknown_byte_keyerror (frame : Frame (List Nat))
    (value : List Nat) (hp : frame.parameter = some value)
    (hv : ∀ s : GPIOSetting, value ≠ s.value) :
    get_gpio_pin_decode frame = .error .keyError ∧
    PyError.keyError.isZigBeeException = false := by
  refine ⟨?_, rfl⟩
  simp [get_gpio_pin_decode, hp, gpio_settings_lookup_none value hv]

/-- Witness for C5 (amended): the unknown parameter byte `0x06` makes the
decode step fail with the un-caught `KeyError`. -/
theorem get_gpio_pin_unknown_byte_keyerror_w :
    get_gpio_pin_decode unknown_byte_frame = .error .keyError ∧
    PyError.keyError.isZigBeeException = false :=
  get_gpio_pin_unknown_byte_keyerror unknown_byte_frame [6] rfl
    (by intro s; cases s <;> simp [GPIOSetting.value])

/-- An `IS` response frame whose parameter is present and whose first sample
is the empty mapping. -/
def empty_first_sample_frame : Frame (List (List (String × Bool))) :=
  { frame_id := none, status := none, parameter := some [[]], command := none }

/-- Counterexample to claim C10: `get_sample` can return the empty mapping
even though the response frame's `parameter` key IS present — namely when the
parameter's first element is itself an empty mapping — refuting that the
empty mapping is returned only when the frame has no `parameter` key. -/
theorem get_sample_empty_mapping_cex :
    empty_first_sample_frame.parameter = some [[]] ∧
    get_sample empty_first_sample_frame = .ok [] := by
  constructor <;> rfl

/-- Claim C10 (amended): `get_sample` returns the fallback empty mapping
whenever the response frame has no `parameter` key; when the `parameter` key
is present it returns the sequence's first element unconditionally (which
may itself be an empty mapping); and when the `parameter` key is present but
maps to an empty sequence, `get_sample` fails with an unguarded `IndexError`
that is not one of the typed failure kinds under the umbrella category. -/
theorem get_sample_behavior {α : Type} (fid : Option Nat) (st : Option (List Nat))
    (cmd : Option (List Nat)) (s : List (String × α))
    (rest : List (List (String × α))) :
    get_sample { frame_id := fid, status := st, parameter := none, command := cmd }
      = .ok ([] : List (String × α)) ∧
    get_sample { frame_id := fid, status := st, parameter := some (s :: rest),
                 command := cmd } = .ok s ∧
    get_sample { frame_id := fid, status := st,
                 parameter := some ([] : List (List (String × α))),
                 command := cmd } = .error .indexError ∧
    PyError.indexError.isZigBeeException = false :=
  ⟨rfl, rfl, rfl, rfl⟩
